import Mathlib

/-
Verification of the typed-foreign-object protocol of the magnus repository:
a shallow embedding of src/typed_data.rs (Descriptor builder, collector
trampolines, typed handle wrap/get/convert, equality/hash bridge), of the
build-time Ruby version probe in build.rs, and of the checked conversions in
src/r_string.rs, src/r_file.rs, src/r_rational.rs and src/binding.rs.
-/

set_option autoImplicit false

namespace Magnus

/-- Ruby API version comparison as computed by build.rs: versions are
(major, minor) pairs of numbers and compared with Rust tuple ordering,
which is lexicographic.  The cfg flag ruby_gte_X_Y is emitted exactly when
versionGe version (X, Y) holds. -/
def versionGe (ver target : Nat × Nat) : Bool :=
  decide (target.1 < ver.1) || (decide (target.1 = ver.1) && decide (target.2 ≤ ver.2))

/-- Flag bit for the free_immediately capability (value 1, from the Ruby header
rtypeddata.h, mirrored by the ruby_lt_3_0 constant in typed_data.rs). -/
def RUBY_TYPED_FREE_IMMEDIATELY : Nat := 1

/-- Flag bit for the write-barrier-protected capability
(RUBY_FL_WB_PROTECTED, bit 5 of the flag word in the Ruby headers). -/
def RUBY_TYPED_WB_PROTECTED : Nat := 32

/-- Flag bit for the frozen_shareable capability (RUBY_FL_SHAREABLE from
the Ruby headers; a bit distinct from the two above). -/
def RUBY_TYPED_FROZEN_SHAREABLE : Nat := 256

/-- Identity of the four extern trampoline function pointers a Descriptor
can carry in its callback slots. -/
inductive CollectorFn where
  | free
  | mark
  | size
  | compact
  deriving DecidableEq, Repr

/-- The callback-slot record of rb_data_type_t (the function field).  On Ruby
older than 2.7 the C struct has no dcompact member at all (two reserved
pointers instead); absence of the slot is modelled as dcompact = none. -/
structure RbDataTypeFn where
  dmark : Option CollectorFn
  dfree : Option CollectorFn
  dsize : Option CollectorFn
  dcompact : Option CollectorFn
  deriving DecidableEq, Repr

/-- The rb_data_type_t record built by DataTypeBuilder::build, i.e. the
Descriptor describing one native type to the collector. -/
structure RbDataType where
  wrap_struct_name : String
  function : RbDataTypeFn
  parent : Option Nat
  data : Option Nat
  flags : Nat
  deriving DecidableEq, Repr

/-- The DataTypeBuilder struct from typed_data.rs: a name plus one boolean
per capability opt-in. -/
structure DataTypeBuilder where
  name : String
  mark : Bool
  size : Bool
  compact : Bool
  free_immediately : Bool
  wb_protected : Bool
  frozen_shareable : Bool
  deriving DecidableEq, Repr

/-- DataTypeBuilder::new: every capability starts disabled. -/
def DataTypeBuilder.new (name : String) : DataTypeBuilder :=
  { name := name
    mark := false
    size := false
    compact := false
    free_immediately := false
    wb_protected := false
    frozen_shareable := false }

/-- One of the six no-argument toggle methods of DataTypeBuilder. -/
inductive BuilderCall where
  | mark
  | size
  | compact
  | free_immediately
  | wb_protected
  | frozen_shareable
  deriving DecidableEq, Repr

/-- Effect of one toggle method on the builder (each method sets its
field to true, as in typed_data.rs). -/
def DataTypeBuilder.applyCall (b : DataTypeBuilder) : BuilderCall → DataTypeBuilder
  | .mark => { b with mark := true }
  | .size => { b with size := true }
  | .compact => { b with compact := true }
  | .free_immediately => { b with free_immediately := true }
  | .wb_protected => { b with wb_protected := true }
  | .frozen_shareable => { b with frozen_shareable := true }

/-- A sequence of toggle method calls applied to a builder. -/
def DataTypeBuilder.applyCalls (b : DataTypeBuilder) (cs : List BuilderCall) : DataTypeBuilder :=
  cs.foldl DataTypeBuilder.applyCall b

/-- DataTypeBuilder::build from typed_data.rs, with the compile-time cfg
conditions (ruby_gte_3_0, ruby_gte_2_7 from build.rs) made explicit as a
version parameter.  The flags word is assembled from the opted-in bits,
dfree is always Some, dmark and dsize follow their opt-ins, the
frozen_shareable bit is only considered on Ruby >= 3.0, and the dcompact
slot only exists on Ruby >= 2.7. -/
def DataTypeBuilder.build (b : DataTypeBuilder) (ver : Nat × Nat) : RbDataType :=
  let flags0 : Nat := 0
  let flags1 := if b.free_immediately then flags0 ||| RUBY_TYPED_FREE_IMMEDIATELY else flags0
  let flags2 := if b.wb_protected then flags1 ||| RUBY_TYPED_WB_PROTECTED else flags1
  let flags3 :=
    if versionGe ver (3, 0) && b.frozen_shareable then
      flags2 ||| RUBY_TYPED_FROZEN_SHAREABLE
    else flags2
  { wrap_struct_name := b.name
    function :=
      { dmark := if b.mark then some CollectorFn.mark else none
        dfree := some CollectorFn.free
        dsize := if b.size then some CollectorFn.size else none
        dcompact :=
          if versionGe ver (2, 7) then
            (if b.compact then some CollectorFn.compact else none)
          else none }
    parent := none
    data := none
    flags := flags3 }

/-- The mark field of a builder reached from a call sequence records
exactly whether the mark toggle appears in the sequence. -/
theorem applyCalls_mark (b : DataTypeBuilder) (cs : List BuilderCall) :
    (b.applyCalls cs).mark = (b.mark || decide (BuilderCall.mark ∈ cs)) := by
  induction cs generalizing b with
  | nil => simp [DataTypeBuilder.applyCalls]
  | cons c cs ih =>
    cases c <;>
      simp [DataTypeBuilder.applyCalls, DataTypeBuilder.applyCall, ih,
        List.mem_cons] at * <;>
      tauto

/-- The size field of a builder reached from a call sequence records
exactly whether the size toggle appears in the sequence. -/
theorem applyCalls_size (b : DataTypeBuilder) (cs : List BuilderCall) :
    (b.applyCalls cs).size = (b.size || decide (BuilderCall.size ∈ cs)) := by
  induction cs generalizing b with
  | nil => simp [DataTypeBuilder.applyCalls]
  | cons c cs ih =>
    cases c <;>
      simp [DataTypeBuilder.applyCalls, DataTypeBuilder.applyCall, ih,
        List.mem_cons] at * <;>
      tauto

/-- The compact field of a builder reached from a call sequence records
exactly whether the compact toggle appears in the sequence. -/
theorem applyCalls_compact (b : DataTypeBuilder) (cs : List BuilderCall) :
    (b.applyCalls cs).compact = (b.compact || decide (BuilderCall.compact ∈ cs)) := by
  induction cs generalizing b with
  | nil => simp [DataTypeBuilder.applyCalls]
  | cons c cs ih =>
    cases c <;>
      simp [DataTypeBuilder.applyCalls, DataTypeBuilder.applyCall, ih,
        List.mem_cons] at * <;>
      tauto

/-- C4: build() always installs the free callback, while the mark and size
slots are filled if and only if the corresponding toggle method was called
on the builder; in particular when mark was not requested the dmark slot is
None. -/
theorem build_installs_callbacks (name : String) (cs : List BuilderCall) (ver : Nat × Nat) :
    ((DataTypeBuilder.new name).applyCalls cs |>.build ver).function.dfree
        = some CollectorFn.free
    ∧ ((DataTypeBuilder.new name).applyCalls cs |>.build ver).function.dmark
        = (if BuilderCall.mark ∈ cs then some CollectorFn.mark else none)
    ∧ ((DataTypeBuilder.new name).applyCalls cs |>.build ver).function.dsize
        = (if BuilderCall.size ∈ cs then some CollectorFn.size else none) := by
  refine ⟨rfl, ?_, ?_⟩
  · by_cases hm : BuilderCall.mark ∈ cs <;>
      simp [DataTypeBuilder.build, applyCalls_mark, DataTypeBuilder.new, hm]
  · by_cases hs : BuilderCall.size ∈ cs <;>
      simp [DataTypeBuilder.build, applyCalls_size, DataTypeBuilder.new, hs]

/-- C5: the compact callback is wired into the Descriptor only when the
host Ruby version is at least 2.7 (versionGe being the tuple comparison
build.rs performs); on older versions build() leaves the slot empty even
when compact() was called, without any error channel (build is total).
The first conjunct pins the meaning of the version guard. -/
theorem build_compact_version_gated (name : String) (cs : List BuilderCall) (ver : Nat × Nat) :
    (versionGe ver (2, 7) = true ↔ 2 < ver.1 ∨ (ver.1 = 2 ∧ 7 ≤ ver.2))
    ∧ (versionGe ver (2, 7) = false →
        ((DataTypeBuilder.new name).applyCalls cs |>.build ver).function.dcompact = none)
    ∧ (versionGe ver (2, 7) = true →
        ((DataTypeBuilder.new name).applyCalls cs |>.build ver).function.dcompact
          = (if BuilderCall.compact ∈ cs then some CollectorFn.compact else none)) := by
  refine ⟨?_, ?_, ?_⟩
  · constructor
    · intro h
      simp [versionGe] at h
      omega
    · intro h
      simp [versionGe]
      omega
  · intro h
    simp [DataTypeBuilder.build, h]
  · intro h
    by_cases hc : BuilderCall.compact ∈ cs <;>
      simp [DataTypeBuilder.build, h, applyCalls_compact, DataTypeBuilder.new, hc]

/-- Witness for build_compact_version_gated: on Ruby 2.6 the compact slot
is empty even though compact() was called; on Ruby 2.7 it is filled. -/
theorem build_compact_version_gated_witness :
    versionGe (2, 6) (2, 7) = false
    ∧ ((DataTypeBuilder.new "t").applyCalls [BuilderCall.compact] |>.build (2, 6)).function.dcompact
        = none
    ∧ ((DataTypeBuilder.new "t").applyCalls [BuilderCall.compact] |>.build (2, 7)).function.dcompact
        = some CollectorFn.compact := by
  refine ⟨by decide, ?_, ?_⟩
  · exact (build_compact_version_gated "t" [BuilderCall.compact] (2, 6)).2.1 (by decide)
  · have h := (build_compact_version_gated "t" [BuilderCall.compact] (2, 7)).2.2 (by decide)
    simpa using h

/-- C9: on host versions before 3.0 the frozen_shareable opt-in is
silently ignored; the flags word of the built Descriptor never contains
the frozen-shareable bit, whatever toggles were called on the builder. -/
theorem build_frozen_shareable_ignored_pre_3_0 (b : DataTypeBuilder) (ver : Nat × Nat)
    (h : versionGe ver (3, 0) = false) :
    (b.build ver).flags &&& RUBY_TYPED_FROZEN_SHAREABLE = 0 := by
  cases hf : b.free_immediately <;> cases hw : b.wb_protected <;>
    simp [DataTypeBuilder.build, h, hf, hw, RUBY_TYPED_FREE_IMMEDIATELY,
      RUBY_TYPED_WB_PROTECTED, RUBY_TYPED_FROZEN_SHAREABLE] <;>
    decide

/-- Witness for build_frozen_shareable_ignored_pre_3_0: a builder with
every capability toggled, built for Ruby 2.7, carries no frozen-shareable
bit in its flags. -/
theorem build_frozen_shareable_ignored_pre_3_0_witness :
    versionGe (2, 7) (3, 0) = false
    ∧ (((DataTypeBuilder.new "t").applyCalls
          [BuilderCall.frozen_shareable, BuilderCall.free_immediately,
            BuilderCall.wb_protected]).build (2, 7)).flags
        &&& RUBY_TYPED_FROZEN_SHAREABLE = 0 :=
  ⟨by decide,
    build_frozen_shareable_ignored_pre_3_0
      ((DataTypeBuilder.new "t").applyCalls
        [BuilderCall.frozen_shareable, BuilderCall.free_immediately,
          BuilderCall.wb_protected]) (2, 7) (by decide)⟩

/-- Outcome of invoking one of the native callbacks (free, mark, size,
compact): either a normal return carrying the result, or a panic
beginning to unwind with a payload message. -/
inductive CallbackRun (α : Type) where
  | ok (val : α)
  | panicked (msg : String)
  deriving DecidableEq, Repr

/-- std::panic::catch_unwind: runs the closure to completion, converting
an unwinding panic into an Err carrying the payload. -/
def catchUnwind {α : Type} (r : CallbackRun α) : Except String α :=
  match r with
  | .ok v => Except.ok v
  | .panicked msg => Except.error msg

/-- What can come out of one of the four foreign-convention trampolines toward
the collector: a normal return through the foreign boundary, process
termination via the fatal-bug path, or (never produced by this code) a
panic unwinding across the foreign boundary. -/
inductive TrampolineResult (α : Type) where
  | returned (val : α)
  | aborted (diag : String)
  | unwound (msg : String)
  deriving DecidableEq, Repr

/-- Modelled from the spec: bug_from_panic (in error.rs, outside src/)
logs the panic payload and terminates the process with the given fatal
diagnostic; it never returns control. -/
def bug_from_panic {α : Type} (payload diag : String) : TrampolineResult α :=
  TrampolineResult.aborted (diag ++ ": " ++ payload)

/-- The four callbacks of DataTypeFunctions for one native type, each of
which may panic when invoked on a value of the type. -/
structure DataTypeFns (τ : Type) where
  free : τ → CallbackRun Unit
  mark : τ → CallbackRun Unit
  size : τ → CallbackRun Nat
  compact : τ → CallbackRun Unit

/-- DataTypeFunctions::extern wrapper for free: catch_unwind around the
free callback (which consumes the boxed value), fatal-bug path on a
caught panic, unit return otherwise. -/
def trampolineFree {τ : Type} (fns : DataTypeFns τ) (v : τ) : TrampolineResult Unit :=
  match catchUnwind (fns.free v) with
  | Except.ok u => TrampolineResult.returned u
  | Except.error e => bug_from_panic e "panic in DataTypeFunctions::free"

/-- DataTypeFunctions::extern wrapper for mark: catch_unwind around the
mark callback, fatal-bug path on a caught panic. -/
def trampolineMark {τ : Type} (fns : DataTypeFns τ) (v : τ) : TrampolineResult Unit :=
  match catchUnwind (fns.mark v) with
  | Except.ok u => TrampolineResult.returned u
  | Except.error e => bug_from_panic e "panic in DataTypeFunctions::mark"

/-- DataTypeFunctions::extern wrapper for size: catch_unwind around the
size callback; a successful run returns the computed size through the
boundary, a caught panic takes the fatal-bug path. -/
def trampolineSize {τ : Type} (fns : DataTypeFns τ) (v : τ) : TrampolineResult Nat :=
  match catchUnwind (fns.size v) with
  | Except.ok n => TrampolineResult.returned n
  | Except.error e => bug_from_panic e "panic in DataTypeFunctions::size"

/-- DataTypeFunctions::extern wrapper for compact: catch_unwind around
the compact callback, fatal-bug path on a caught panic. -/
def trampolineCompact {τ : Type} (fns : DataTypeFns τ) (v : τ) : TrampolineResult Unit :=
  match catchUnwind (fns.compact v) with
  | Except.ok u => TrampolineResult.returned u
  | Except.error e => bug_from_panic e "panic in DataTypeFunctions::compact"

/-- C3: each of the four collector trampolines turns a panicking callback
into process termination on the fatal-bug path, never lets a panic unwind
through the extern boundary, and on a successful callback run the size
trampoline returns the result of the callback while the other three return
unit. -/
theorem trampolines_contain_panics {τ : Type} (fns : DataTypeFns τ) (v : τ) :
    (∀ msg, fns.free v = CallbackRun.panicked msg →
      trampolineFree fns v
        = TrampolineResult.aborted ("panic in DataTypeFunctions::free: " ++ msg))
    ∧ (∀ msg, fns.mark v = CallbackRun.panicked msg →
      trampolineMark fns v
        = TrampolineResult.aborted ("panic in DataTypeFunctions::mark: " ++ msg))
    ∧ (∀ msg, fns.size v = CallbackRun.panicked msg →
      trampolineSize fns v
        = TrampolineResult.aborted ("panic in DataTypeFunctions::size: " ++ msg))
    ∧ (∀ msg, fns.compact v = CallbackRun.panicked msg →
      trampolineCompact fns v
        = TrampolineResult.aborted ("panic in DataTypeFunctions::compact: " ++ msg))
    ∧ (∀ m, trampolineFree fns v ≠ TrampolineResult.unwound m)
    ∧ (∀ m, trampolineMark fns v ≠ TrampolineResult.unwound m)
    ∧ (∀ m, trampolineSize fns v ≠ TrampolineResult.unwound m)
    ∧ (∀ m, trampolineCompact fns v ≠ TrampolineResult.unwound m)
    ∧ (fns.free v = CallbackRun.ok () →
      trampolineFree fns v = TrampolineResult.returned ())
    ∧ (fns.mark v = CallbackRun.ok () →
      trampolineMark fns v = TrampolineResult.returned ())
    ∧ (∀ n, fns.size v = CallbackRun.ok n →
      trampolineSize fns v = TrampolineResult.returned n)
    ∧ (fns.compact v = CallbackRun.ok () →
      trampolineCompact fns v = TrampolineResult.returned ()) := by
  refine ⟨?_, ?_, ?_, ?_, ?_, ?_, ?_, ?_, ?_, ?_, ?_, ?_⟩
  · intro msg h; simp [trampolineFree, catchUnwind, h, bug_from_panic]
  · intro msg h; simp [trampolineMark, catchUnwind, h, bug_from_panic]
  · intro msg h; simp [trampolineSize, catchUnwind, h, bug_from_panic]
  · intro msg h; simp [trampolineCompact, catchUnwind, h, bug_from_panic]
  · intro m
    cases h : fns.free v <;>
      simp [trampolineFree, catchUnwind, h, bug_from_panic]
  · intro m
    cases h : fns.mark v <;>
      simp [trampolineMark, catchUnwind, h, bug_from_panic]
  · intro m
    cases h : fns.size v <;>
      simp [trampolineSize, catchUnwind, h, bug_from_panic]
  · intro m
    cases h : fns.compact v <;>
      simp [trampolineCompact, catchUnwind, h, bug_from_panic]
  · intro h; simp [trampolineFree, catchUnwind, h]
  · intro h; simp [trampolineMark, catchUnwind, h]
  · intro n h; simp [trampolineSize, catchUnwind, h]
  · intro h; simp [trampolineCompact, catchUnwind, h]

/-- A concrete set of callbacks whose free callback panics and whose size
callback returns 8, for exercising the trampoline theorem. -/
def fnsSample : DataTypeFns Unit :=
  { free := fun _ => CallbackRun.panicked "boom"
    mark := fun _ => CallbackRun.ok ()
    size := fun _ => CallbackRun.ok 8
    compact := fun _ => CallbackRun.ok () }

/-- Witness for trampolines_contain_panics: with the sample callbacks, a
panicking free aborts on the fatal path, a successful size run returns
its result, and neither trampoline unwinds. -/
theorem trampolines_contain_panics_witness :
    trampolineFree fnsSample ()
      = TrampolineResult.aborted "panic in DataTypeFunctions::free: boom"
    ∧ trampolineSize fnsSample () = TrampolineResult.returned 8
    ∧ trampolineFree fnsSample () ≠ TrampolineResult.unwound "boom" :=
  ⟨(trampolines_contain_panics fnsSample ()).1 "boom" rfl,
    (trampolines_contain_panics fnsSample ()).2.2.2.2.2.2.2.2.2.2.1 8 rfl,
    (trampolines_contain_panics fnsSample ()).2.2.2.2.1 "boom"⟩

/-- Identity of a native type T as seen by the conversion layer: its host
class identity (doubling as the display name used in error messages) and
the address of its static Descriptor.  This is the dictionary the
TypedData trait supplies through class() and data_type(), both of which
must be stable per type. -/
structure TypedDataClass where
  klass : String
  descPtr : Nat
  deriving DecidableEq, Repr

/-- Modelled from the spec: the contents of one host-managed RTypedData
storage slot (r_typed_data.rs is outside src/) — the Descriptor pointer
the slot was tagged with at wrap time, the class of the wrapping object,
and the stored native value, drawn from a universe γ of storable
payloads. -/
structure RTypedDataVal (γ : Type) where
  descPtr : Nat
  klass : String
  payload : γ
  deriving DecidableEq, Repr

/-- An untyped host Value as seen by the typed-data conversion layer:
either an object of the Ruby typed-data kind, or any other object (only its
class name matters here, for error messages). -/
inductive RbValue (γ : Type) where
  | typedData (d : RTypedDataVal γ)
  | otherObj (klassName : String)
  deriving DecidableEq, Repr

/-- Value::classname, as used when formatting conversion errors. -/
def RbValue.classname {γ : Type} : RbValue γ → String
  | .typedData d => d.klass
  | .otherObj n => n

/-- The recoverable error type of the crate, restricted to the two kinds
these modules produce. -/
inductive RbError where
  | typeError (msg : String)
  | encodingError (msg : String)
  deriving DecidableEq, Repr

/-- Modelled from the spec: RTypedData::from_value — the host-level kind
check, succeeding exactly on values of the typed-data kind. -/
def rTypedDataFromValue {γ : Type} : RbValue γ → Option (RTypedDataVal γ)
  | .typedData d => some d
  | .otherObj _ => none

/-- Modelled from the spec: RTypedData::get::<T> — verifies the slot
Descriptor pointer equals the Descriptor pointer of T before exposing the
stored value, and otherwise returns a wrapping-type error. -/
def RTypedDataVal.getAs {γ : Type} (d : RTypedDataVal γ) (T : TypedDataClass) :
    Except RbError γ :=
  if d.descPtr = T.descPtr then Except.ok d.payload
  else
    Except.error (RbError.typeError
      ("wrong argument type " ++ d.klass ++ " (expected " ++ T.klass ++ ")"))

/-- Modelled from the spec: RTypedData::wrap — allocates a host-managed
slot tagged with the Descriptor of T and class and moves the value into it. -/
def rTypedDataWrap {γ : Type} (T : TypedDataClass) (v : γ) : RTypedDataVal γ :=
  { descPtr := T.descPtr, klass := T.klass, payload := v }

/-- typed_data::Obj<T>: an RTypedData reference together with the phantom
native type T, here carried as an explicit index. -/
structure Obj (γ : Type) (T : TypedDataClass) where
  inner : RTypedDataVal γ
  deriving DecidableEq, Repr

/-- RubyHandle::obj_wrap (also Obj::wrap): wraps the native value via
RTypedData::wrap and tags the result with the phantom type. -/
def obj_wrap {γ : Type} (T : TypedDataClass) (v : γ) : Obj γ T :=
  { inner := rTypedDataWrap T v }

/-- Obj::get: delegates to the descriptor-checked access of the inner
RTypedData (the source unwraps, the check being guaranteed to pass for a
constructed Obj; the model keeps the Except so the guarantee is a
theorem). -/
def Obj.get {γ : Type} {T : TypedDataClass} (o : Obj γ T) : Except RbError γ :=
  o.inner.getAs T

/-- TryConvert for Obj<T> from typed_data.rs: the host-level kind check
through RTypedData::from_value (with a type error naming the actual and
expected classes on failure), then the Descriptor check through
RTypedData::get::<T>, then success keeping the same inner reference. -/
def Obj.try_convert {γ : Type} (T : TypedDataClass) (val : RbValue γ) :
    Except RbError (Obj γ T) :=
  match rTypedDataFromValue val with
  | none =>
    Except.error (RbError.typeError
      ("no implicit conversion of " ++ val.classname ++ " into " ++ T.klass))
  | some inner =>
    match inner.getAs T with
    | Except.error e => Except.error e
    | Except.ok _ => Except.ok { inner := inner }

/-- C1: wrapping a native value with obj_wrap and then calling get on the
returned handle yields exactly the wrapped value. -/
theorem obj_wrap_get_roundtrip {γ : Type} (T : TypedDataClass) (v : γ) :
    (obj_wrap T v).get = Except.ok v := by
  simp [obj_wrap, Obj.get, rTypedDataWrap, RTypedDataVal.getAs]

/-- C2: converting an untyped value into Obj<T> fails with a type error
naming the actual and expected classes when the host-level kind check
fails; and for native types T and U with distinct Descriptor pointers, a
value wrapping a U never converts into Obj<T> — even when T and U share
the same host class — because the Descriptor pointer check runs after the
kind check passes. -/
theorem obj_try_convert_checks {γ : Type} (T U : TypedDataClass) (v : γ)
    (name : String) (hd : T.descPtr ≠ U.descPtr) :
    Obj.try_convert T (RbValue.otherObj name : RbValue γ)
      = Except.error (RbError.typeError
          ("no implicit conversion of " ++ name ++ " into " ++ T.klass))
    ∧ ∃ msg, Obj.try_convert T (RbValue.typedData (rTypedDataWrap U v))
        = Except.error (RbError.typeError msg) := by
  constructor
  · simp [Obj.try_convert, rTypedDataFromValue, RbValue.classname]
  · refine ⟨"wrong argument type " ++ U.klass ++ " (expected " ++ T.klass ++ ")", ?_⟩
    have hne : U.descPtr ≠ T.descPtr := fun h => hd h.symm
    simp [Obj.try_convert, rTypedDataFromValue, rTypedDataWrap,
      RTypedDataVal.getAs, hne]

/-- Witness for obj_try_convert_checks: two native types sharing the host
class Point but with distinct Descriptors; conversion of a wrapped U into
Obj<T> fails, and conversion of an Integer fails naming both classes. -/
theorem obj_try_convert_checks_witness :
    Obj.try_convert (γ := Nat) ⟨"Point", 0⟩ (RbValue.otherObj "Integer")
      = Except.error (RbError.typeError "no implicit conversion of Integer into Point")
    ∧ ∃ msg,
      Obj.try_convert (γ := Nat) ⟨"Point", 0⟩
          (RbValue.typedData (rTypedDataWrap ⟨"Point", 1⟩ 42))
        = Except.error (RbError.typeError msg) := by
  have h := obj_try_convert_checks (γ := Nat) ⟨"Point", 0⟩ ⟨"Point", 1⟩ 42 "Integer"
    (by decide)
  exact ⟨h.1, h.2⟩

/-- TryConvert for &T from typed_data.rs: host-level kind check through
RTypedData::from_value with the same conversion error, then the
descriptor-checked borrow of the stored value (get_unconstrained, which
is modelled from the spec as the Descriptor pointer check). -/
def refTryConvert {γ : Type} (T : TypedDataClass) (val : RbValue γ) :
    Except RbError γ :=
  match rTypedDataFromValue val with
  | none =>
    Except.error (RbError.typeError
      ("no implicit conversion of " ++ val.classname ++ " into " ++ T.klass))
  | some d => d.getAs T

/-- typed_data::IsEql::is_eql for a native type with equality eq: attempt
the checked conversion of the argument to &T, compare on success, answer
false on any conversion error. -/
def is_eql {γ : Type} (T : TypedDataClass) (eq : γ → γ → Bool) (self : γ)
    (other : RbValue γ) : Bool :=
  match (refTryConvert T other).map (fun o => eq self o) with
  | Except.ok b => b
  | Except.error _ => false

/-- C7: is_eql returns false — an ordinary value, not an error — whenever
the checked conversion of the argument fails (in particular against any
non-typed-data object, and against a value wrapped for a native type with
a different Descriptor), and returns the native equality verdict whenever
the conversion succeeds. -/
theorem is_eql_false_on_foreign {γ : Type} (T U : TypedDataClass)
    (eq : γ → γ → Bool) (self v : γ) (other : RbValue γ) (name : String)
    (hd : T.descPtr ≠ U.descPtr) :
    (∀ e, refTryConvert T other = Except.error e → is_eql T eq self other = false)
    ∧ (∀ o, refTryConvert T other = Except.ok o → is_eql T eq self other = eq self o)
    ∧ is_eql T eq self (RbValue.otherObj name) = false
    ∧ is_eql T eq self (RbValue.typedData (rTypedDataWrap U v)) = false := by
  refine ⟨?_, ?_, ?_, ?_⟩
  · intro e h; simp [is_eql, h, Except.map]
  · intro o h; simp [is_eql, h, Except.map]
  · simp [is_eql, refTryConvert, rTypedDataFromValue, Except.map]
  · have hne : U.descPtr ≠ T.descPtr := fun h => hd h.symm
    simp [is_eql, refTryConvert, rTypedDataFromValue, rTypedDataWrap,
      RTypedDataVal.getAs, hne, Except.map]

/-- Witness for is_eql_false_on_foreign: a native Nat type compared
against an Integer and against a same-class foreign wrap answers false;
against a matching wrap it answers the native equality verdict. -/
theorem is_eql_false_on_foreign_witness :
    is_eql (γ := Nat) ⟨"Point", 0⟩ (fun a b => a == b) 42 (RbValue.otherObj "Integer")
        = false
    ∧ is_eql (γ := Nat) ⟨"Point", 0⟩ (fun a b => a == b) 42
        (RbValue.typedData (rTypedDataWrap ⟨"Point", 1⟩ 42)) = false
    ∧ is_eql (γ := Nat) ⟨"Point", 0⟩ (fun a b => a == b) 42
        (RbValue.typedData (rTypedDataWrap ⟨"Point", 0⟩ 42)) = true := by
  have h := is_eql_false_on_foreign (γ := Nat) ⟨"Point", 0⟩ ⟨"Point", 1⟩
    (fun a b => a == b) 42 42 (RbValue.typedData (rTypedDataWrap ⟨"Point", 0⟩ 42))
    "Integer" (by decide)
  refine ⟨h.2.2.1, h.2.2.2, ?_⟩
  have hok : refTryConvert (γ := Nat) ⟨"Point", 0⟩
      (RbValue.typedData (rTypedDataWrap ⟨"Point", 0⟩ 42)) = Except.ok 42 := by
    simp [refTryConvert, rTypedDataFromValue, rTypedDataWrap, RTypedDataVal.getAs]
  simpa using h.2.1 42 hok

/-- One mixing step of the hasher state on one written word, modelled as
a deterministic 64-bit function (the std DefaultHasher is a fixed SipHash
variant; the bridge relies only on it being a pure function of the bytes
written, with a 64-bit result). -/
def hasherWrite (state w : Nat) : Nat :=
  (state * 33 + w) % 2 ^ 64

/-- DefaultHasher::finish over the full stream of written words: fold the
mixing step from a fixed seed; the result is a 64-bit unsigned value. -/
def hasherFinish (ws : List Nat) : Nat :=
  (ws.foldl hasherWrite 5381) % 2 ^ 64

/-- The as-i64 cast the bridge applies to the u64 hash: reinterpret the
bit pattern as a twos-complement signed 64-bit integer. -/
def u64AsI64 (n : Nat) : Int :=
  if n < 2 ^ 63 then (n : Int) else (n : Int) - 2 ^ 64

/-- typed_data::Hash::hash for a native type whose std Hash writes the
stream hashStream v into the hasher: create a DefaultHasher, feed it the
hash stream of the value, and cast finish() to i64. -/
def typedDataHash {τ : Type} (hashStream : τ → List Nat) (v : τ) : Int :=
  u64AsI64 (hasherFinish (hashStream v))

/-- C6: the derived hash bridge always produces a value in the signed
64-bit range, and two native values whose std Hash writes the same stream
(as equal values must) hash to the same i64. -/
theorem typed_data_hash_contract {τ : Type} (hashStream : τ → List Nat) (v w : τ)
    (h : hashStream v = hashStream w) :
    typedDataHash hashStream v = typedDataHash hashStream w
    ∧ -(2 ^ 63) ≤ typedDataHash hashStream v
    ∧ typedDataHash hashStream v < 2 ^ 63 := by
  refine ⟨by rw [typedDataHash, typedDataHash, h], ?_, ?_⟩ <;>
  · have hlt : hasherFinish (hashStream v) < 2 ^ 64 :=
      Nat.mod_lt _ (by norm_num)
    rw [typedDataHash, u64AsI64]
    split <;> omega

/-- Witness for typed_data_hash_contract: two values of a pair type whose
streams agree hash identically, inside the signed 64-bit range. -/
theorem typed_data_hash_contract_witness :
    typedDataHash (fun p : Nat × Nat => [p.1 % 3, p.2]) (1, 2)
        = typedDataHash (fun p : Nat × Nat => [p.1 % 3, p.2]) (4, 2)
    ∧ -(2 ^ 63) ≤ typedDataHash (fun p : Nat × Nat => [p.1 % 3, p.2]) (1, 2)
    ∧ typedDataHash (fun p : Nat × Nat => [p.1 % 3, p.2]) (1, 2) < 2 ^ 63 :=
  typed_data_hash_contract (fun p : Nat × Nat => [p.1 % 3, p.2]) (1, 2) (4, 2)
    (by decide)

/-- One operation of a DataType lifecycle trace: a call to
DataTypeBuilder::build (allocating the name storage), or the Drop of the
i-th built DataType (freeing the name storage of that Descriptor). -/
inductive DtOp where
  | build
  | drop (i : Nat)
  deriving DecidableEq, Repr

/-- Allocator state threaded through a lifecycle trace: the name pointer
held by each built Descriptor in build order, the next fresh address
(CString::into_raw always hands out fresh storage), and the list of free
events performed by Drop (CString::from_raw followed by drop). -/
structure DtState where
  ptrs : List Nat
  next : Nat
  freed : List Nat
  deriving DecidableEq, Repr

/-- The state before any build: nothing allocated, nothing freed. -/
def DtState.start : DtState :=
  { ptrs := [], next := 0, freed := [] }

/-- Effect of one lifecycle operation: build() stores a fresh name
pointer in the new Descriptor; Drop for DataType frees exactly the name
pointer its Descriptor stores (wrap_struct_name). -/
def dtStep (s : DtState) : DtOp → DtState
  | .build => { ptrs := s.ptrs ++ [s.next], next := s.next + 1, freed := s.freed }
  | .drop i => { s with freed := s.freed ++ [s.ptrs.getD i 0] }

/-- Run a whole lifecycle trace from the empty state. -/
def dtRun (ops : List DtOp) : DtState :=
  ops.foldl dtStep DtState.start

/-- Number of build operations in a trace. -/
def buildCount : List DtOp → Nat
  | [] => 0
  | .build :: rest => buildCount rest + 1
  | .drop _ :: rest => buildCount rest

/-- The drop targets of a trace, in order. -/
def dropIdxs : List DtOp → List Nat
  | [] => []
  | .build :: rest => dropIdxs rest
  | .drop i :: rest => i :: dropIdxs rest

/-- Rust well-formedness of a trace given k Descriptors already built:
each drop targets an already built DataType (a value exists before it can
go out of scope). -/
def opsValid : Nat → List DtOp → Bool
  | _, [] => true
  | k, .build :: rest => opsValid (k + 1) rest
  | k, .drop i :: rest => decide (i < k) && opsValid k rest

/-- Running a valid trace from a state whose pointers are exactly the
addresses below next yields: the same shape of pointer list, next grown
by the number of builds, and a freed list extended by exactly the name
pointer of each dropped Descriptor (which, from the start state, is the
drop index itself). -/
theorem dtRun_aux (ops : List DtOp) (s : DtState)
    (hp : s.ptrs = List.range s.next) (hv : opsValid s.next ops = true) :
    (ops.foldl dtStep s).ptrs = List.range (ops.foldl dtStep s).next
    ∧ (ops.foldl dtStep s).next = s.next + buildCount ops
    ∧ (ops.foldl dtStep s).freed = s.freed ++ dropIdxs ops := by
  induction ops generalizing s with
  | nil => simp [buildCount, dropIdxs, hp]
  | cons op rest ih =>
    cases op with
    | build =>
      have hv' : opsValid (s.next + 1) rest = true := by
        simpa [opsValid] using hv
      have hp' : (dtStep s DtOp.build).ptrs = List.range (dtStep s DtOp.build).next := by
        simp [dtStep, hp, List.range_succ]
      have h := ih (dtStep s DtOp.build) hp' (by simpa [dtStep] using hv')
      refine ⟨h.1, ?_, ?_⟩
      · have := h.2.1
        simp only [dtStep] at this
        simp [List.foldl_cons, buildCount, this, dtStep]
        omega
      · have := h.2.2
        simp only [dtStep] at this
        simpa [List.foldl_cons, dropIdxs, dtStep] using this
    | drop i =>
      have hvi : i < s.next ∧ opsValid s.next rest = true := by
        have := hv
        simp [opsValid] at this
        exact this
      have hget : s.ptrs.getD i 0 = i := by
        rw [hp, List.getD_eq_getElem?_getD, List.getElem?_range hvi.1]
        rfl
      have hget' : s.ptrs[i]?.getD 0 = i := by
        rw [hp, List.getElem?_range hvi.1]
        rfl
      have hp' : (dtStep s (DtOp.drop i)).ptrs = List.range (dtStep s (DtOp.drop i)).next := by
        simpa [dtStep] using hp
      have h := ih (dtStep s (DtOp.drop i)) hp' (by simpa [dtStep] using hvi.2)
      refine ⟨h.1, ?_, ?_⟩
      · have := h.2.1
        simpa [List.foldl_cons, buildCount, dtStep] using this
      · have := h.2.2
        simp only [dtStep, hget] at this
        simp [List.foldl_cons, dropIdxs, dtStep, this, hget, hget',
          List.append_assoc]

/-- C8: across any valid lifecycle trace in which every built DataType is
dropped exactly once (the drop targets are a permutation of the built
Descriptors), every allocated name pointer is freed exactly once and no
pointer is ever freed that was not allocated — no double free, no
leak. -/
theorem descriptor_name_freed_exactly_once (ops : List DtOp)
    (hv : opsValid 0 ops = true)
    (hc : (dropIdxs ops).Perm (List.range (buildCount ops))) (p : Nat) :
    (dtRun ops).freed.count p = (if p ∈ (dtRun ops).ptrs then 1 else 0) := by
  have h := dtRun_aux ops DtState.start (by simp [DtState.start])
    (by simpa [DtState.start] using hv)
  rw [dtRun] at *
  have hfreed : (ops.foldl dtStep DtState.start).freed = dropIdxs ops := by
    simpa [DtState.start] using h.2.2
  have hnext : (ops.foldl dtStep DtState.start).next = buildCount ops := by
    simpa [DtState.start] using h.2.1
  have hptrs : (ops.foldl dtStep DtState.start).ptrs = List.range (buildCount ops) := by
    rw [h.1, hnext]
  rw [hfreed, hptrs, hc.count_eq]
  by_cases hm : p ∈ List.range (buildCount ops)
  · rw [if_pos hm]
    exact List.count_eq_one_of_mem (List.nodup_range _) hm
  · rw [if_neg hm]
    exact List.count_eq_zero_of_not_mem hm

/-- A lifecycle trace building two Descriptors and dropping each exactly
once, in reverse order. -/
def dtOpsSample : List DtOp :=
  [DtOp.build, DtOp.build, DtOp.drop 1, DtOp.drop 0]

/-- Witness for descriptor_name_freed_exactly_once on the sample trace:
the name pointer of the first Descriptor is freed exactly once. -/
theorem descriptor_name_freed_exactly_once_witness :
    opsValid 0 dtOpsSample = true
    ∧ (dtRun dtOpsSample).freed.count 0
        = (if 0 ∈ (dtRun dtOpsSample).ptrs then 1 else 0) :=
  ⟨by decide,
    descriptor_name_freed_exactly_once dtOpsSample (by decide)
      (by simpa [dtOpsSample, dropIdxs, buildCount, List.range_succ] using
        List.Perm.swap 0 1 []) 0⟩

/-- The subset of the Ruby value-kind tags (ruby_value_type) these
conversions inspect through Value::rb_type. -/
inductive ValueKind where
  | stringKind
  | fileKind
  | rationalKind
  | dataKind
  | otherKind
  deriving DecidableEq, Repr

/-- An untyped host value as the value-kind conversions see it: its kind
tag, its class name (for error messages), the outcome of the implicit host
to-string coercion — modelled from the spec for rb_str_to_str
(outside src/): some coerced string content, or none when the host raises
— and whether the value is_kind_of the Binding class. -/
structure HostValue where
  kind : ValueKind
  klassName : String
  toStrOutcome : Option String
  isBindingInstance : Bool
  deriving DecidableEq, Repr

/-- What the RString TryConvert can produce: the value itself when it was
already of string kind (RString::from_value), or the string produced by
the implicit host coercion (from_rb_value_unchecked on the rb_str_to_str
result). -/
inductive RStringConv where
  | already (v : HostValue)
  | viaToStr (content : String)
  deriving DecidableEq, Repr

/-- TryConvert for RString from r_string.rs: return the value when its
kind tag is string; otherwise run rb_str_to_str under protect, succeeding
on a coercible value and propagating the raised conversion error
otherwise. -/
def rStringTryConvert (v : HostValue) : Except RbError RStringConv :=
  if v.kind = ValueKind.stringKind then Except.ok (RStringConv.already v)
  else
    match v.toStrOutcome with
    | some s => Except.ok (RStringConv.viaToStr s)
    | none =>
      Except.error (RbError.typeError
        ("no implicit conversion of " ++ v.klassName ++ " into String"))

/-- TryConvert for RFile from r_file.rs: RFile::from_value checks the
kind tag and any other value yields a type error naming the class. -/
def rFileTryConvert (v : HostValue) : Except RbError HostValue :=
  if v.kind = ValueKind.fileKind then Except.ok v
  else
    Except.error (RbError.typeError
      ("no implicit conversion of " ++ v.klassName ++ " into File"))

/-- TryConvert for RRational from r_rational.rs: same shape as RFile,
against the rational kind tag. -/
def rRationalTryConvert (v : HostValue) : Except RbError HostValue :=
  if v.kind = ValueKind.rationalKind then Except.ok v
  else
    Except.error (RbError.typeError
      ("no implicit conversion of " ++ v.klassName ++ " into Rational"))

/-- TryConvert for Binding from binding.rs: Binding::from_value checks
is_kind_of the Binding class and any other value yields a type error
naming the class. -/
def bindingTryConvert (v : HostValue) : Except RbError HostValue :=
  if v.isBindingInstance then Except.ok v
  else
    Except.error (RbError.typeError
      ("no implicit conversion of " ++ v.klassName ++ " into Binding"))

/-- C10: the checked RString conversion does not fail immediately on a
non-string value — it succeeds through the implicit host to-string
coercion whenever the value is coercible, erring only when the value is
neither a string nor coercible — whereas the RFile, RRational and Binding
conversions fail with a type-conversion error on every value of the wrong
kind, coercible or not. -/
theorem string_conversion_coerces (v : HostValue) :
    (v.kind ≠ ValueKind.stringKind → ∀ s, v.toStrOutcome = some s →
      rStringTryConvert v = Except.ok (RStringConv.viaToStr s))
    ∧ (v.kind ≠ ValueKind.stringKind → v.toStrOutcome = none →
      ∃ msg, rStringTryConvert v = Except.error (RbError.typeError msg))
    ∧ (v.kind ≠ ValueKind.fileKind →
      ∃ msg, rFileTryConvert v = Except.error (RbError.typeError msg))
    ∧ (v.kind ≠ ValueKind.rationalKind →
      ∃ msg, rRationalTryConvert v = Except.error (RbError.typeError msg))
    ∧ (v.isBindingInstance = false →
      ∃ msg, bindingTryConvert v = Except.error (RbError.typeError msg)) := by
  refine ⟨?_, ?_, ?_, ?_, ?_⟩
  · intro hk s hs
    simp [rStringTryConvert, hk, hs]
  · intro hk hs
    exact ⟨"no implicit conversion of " ++ v.klassName ++ " into String",
      by simp [rStringTryConvert, hk, hs]⟩
  · intro hk
    exact ⟨"no implicit conversion of " ++ v.klassName ++ " into File",
      by simp [rFileTryConvert, hk]⟩
  · intro hk
    exact ⟨"no implicit conversion of " ++ v.klassName ++ " into Rational",
      by simp [rRationalTryConvert, hk]⟩
  · intro hb
    exact ⟨"no implicit conversion of " ++ v.klassName ++ " into Binding",
      by simp [bindingTryConvert, hb]⟩

/-- A host Integer value, coercible to the string form of its digits, for
exercising the conversion theorem. -/
def intSample : HostValue :=
  { kind := ValueKind.otherKind
    klassName := "Integer"
    toStrOutcome := some "1"
    isBindingInstance := false }

/-- Witness for string_conversion_coerces: the coercible Integer converts
to a string through the implicit coercion while the RFile, RRational and
Binding conversions all reject it. -/
theorem string_conversion_coerces_witness :
    rStringTryConvert intSample = Except.ok (RStringConv.viaToStr "1")
    ∧ (∃ msg, rFileTryConvert intSample = Except.error (RbError.typeError msg))
    ∧ (∃ msg, rRationalTryConvert intSample = Except.error (RbError.typeError msg))
    ∧ (∃ msg, bindingTryConvert intSample = Except.error (RbError.typeError msg)) :=
  ⟨(string_conversion_coerces intSample).1 (by decide) "1" rfl,
    (string_conversion_coerces intSample).2.2.1 (by decide),
    (string_conversion_coerces intSample).2.2.2.1 (by decide),
    (string_conversion_coerces intSample).2.2.2.2 rfl⟩

end Magnus
